import Mathlib

/-!
Verification development for a small HTTP/WebSocket messaging server
(src/server.js). The request handlers, the session-state event handlers
and the pagination logic are shallowly embedded as pure Lean functions;
the external messaging client (send outcomes, number resolution, chat
list, contact list) is passed in as explicit data or functions. The
JavaScript event loop is modelled by the fact that a request handler
runs to completion (producing its HTTP response) before any timer
callback registered with setTimeout fires.
-/

/-- Truthiness of an optional string field of a JSON body, as tested by
JavaScript `!x`: absent (undefined) and the empty string are falsy. -/
def jsStrTruthy : Option String → Bool
  | none => false
  | some s => !(s == "")

/-- Truthiness of an optional array field: absent is falsy, any array
(including the empty array) is truthy in JavaScript. -/
def jsListTruthy (l : Option (List String)) : Bool :=
  l.isSome

/-- Truthiness of an optional numeric field: absent and 0 are falsy. -/
def jsNumTruthy : Option Int → Bool
  | none => false
  | some n => !(n == 0)

/-- The JavaScript expression `x || d` for an optional string x and a
string default d: yields d when x is absent or empty. -/
def jsOrString : Option String → String → String
  | none, d => d
  | some s, d => if s == "" then d else s

/-- Digit filter of a string: `num.replace(/\D/g, "")` keeps exactly the
characters 0-9. -/
def stripNonDigits (s : String) : String :=
  String.mk (s.data.filter Char.isDigit)

/-- Recipient normalization from server.js lines 89 and 198:
`num.replace(/\D/g, "") + "@c.us"`. -/
def normalizeRecipient (s : String) : String :=
  stripNonDigits s ++ "@c.us"

/-- An HTTP response: either `res.json({success:true, message})` or
`res.status(code).json({error})`. -/
inductive HttpResp where
  | success (message : String)
  | failure (status : Nat) (error : String)
deriving Repr, DecidableEq

/-- A send attempt registered with setTimeout: it fires `fireAt`
milliseconds after the handler accepted the request, targeting a
normalized address with the given text payload. -/
structure SendAttempt where
  fireAt : Nat
  target : String
  payload : String
deriving Repr, DecidableEq

/-- Body of POST /send: `{ numbers, message, delay = 1000 }` — the
spacing defaults to 1000 only when the field is absent. -/
structure SendReq where
  numbers : Option (List String)
  message : Option String
  delay : Option Nat

/-- Handler of POST /send (server.js lines 81-105): validates presence
of numbers and message, normalizes every recipient, and registers one
timer per recipient with delay `index * delay`; the response reports
acceptance, not delivery. Returns the response together with the list
of registered timers, in registration order. -/
def sendEndpoint (req : SendReq) : HttpResp × List SendAttempt :=
  if !(jsListTruthy req.numbers && jsStrTruthy req.message) then
    (HttpResp.failure 400 "Missing parameters", [])
  else
    let numbers := req.numbers.getD []
    let message := req.message.getD ""
    let spacing := req.delay.getD 1000
    let formattedNumbers := numbers.map normalizeRecipient
    let attempts := formattedNumbers.enum.map
      (fun p => { fireAt := p.1 * spacing, target := p.2, payload := message : SendAttempt })
    (HttpResp.success "Messages are being sent.", attempts)

/-- An observable event of one request execution: the HTTP response
being produced, or a scheduled send attempt firing. -/
inductive TraceEvent where
  | respond (r : HttpResp)
  | fire (a : SendAttempt)
deriving Repr, DecidableEq

/-- Execution trace of one POST /send request under the event-loop
semantics: the handler body is synchronous, so its response is produced
first; timer callbacks fire afterwards (they are registered with
nondecreasing delays, in index order, so they fire in list order). -/
def sendTrace (req : SendReq) : List TraceEvent :=
  TraceEvent.respond (sendEndpoint req).1 :: (sendEndpoint req).2.map TraceEvent.fire

/-- Body of POST /schedule: `{ numbers, message, timestamp }`. -/
structure ScheduleReq where
  numbers : Option (List String)
  message : Option String
  timestamp : Option Int

/-- Handler of POST /schedule (server.js lines 187-212): validates
presence, computes `delay = timestamp - Date.now()`, rejects
`delay <= 0` as an invalid timestamp, otherwise registers a single
timer at that delay which sends to every normalized recipient. -/
def scheduleEndpoint (req : ScheduleReq) (now : Int) : HttpResp × List SendAttempt :=
  if !(jsListTruthy req.numbers && jsStrTruthy req.message && jsNumTruthy req.timestamp) then
    (HttpResp.failure 400 "Missing parameters", [])
  else
    let delay := req.timestamp.getD 0 - now
    if delay ≤ 0 then
      (HttpResp.failure 400 "Invalid timestamp", [])
    else
      let numbers := req.numbers.getD []
      let message := req.message.getD ""
      let formattedNumbers := numbers.map normalizeRecipient
      (HttpResp.success "Message scheduled successfully.",
        formattedNumbers.map
          (fun n => { fireAt := delay.toNat, target := n, payload := message : SendAttempt }))

/-- The two module-level session flags `clientConnected` and
`qrGenerated` of server.js (lines 14-15), both false at process start. -/
structure SessionState where
  connected : Bool
  qrIssued : Bool
deriving Repr, DecidableEq

/-- Lifecycle events emitted by the external messaging client to which
server.js attaches handlers: qr, ready, auth_failure, error,
disconnected. -/
inductive ClientEvent where
  | qr (code : String)
  | ready
  | authFailure
  | clientError (msg : String)
  | disconnected (reason : String)
deriving Repr, DecidableEq

/-- A notification broadcast over the socket channel with io.emit. -/
inductive Broadcast where
  | qrImage (url : String)
  | readyNote
  | authFailureNote
  | errorNote (msg : String)
deriving Repr, DecidableEq

/-- Stand-in for the external qrcode.toDataURL encoder (an external
collaborator); its delivery failures are out of scope, so it is
modelled as a total function. -/
def encodeQR (code : String) : String :=
  "data:image/png;base64," ++ code

/-- Step relation of the session-state handlers of server.js: the qr
handler (lines 24-31) is guarded by `clientConnected || qrGenerated`;
ready (58-62) sets connected and broadcasts; auth_failure (65-70) and
error (73-78) broadcast and reset both flags; disconnected (225-230)
resets both flags and broadcasts nothing (it only schedules a client
restart). Returns the new state and the broadcasts the handler emits. -/
def sessionStep (s : SessionState) : ClientEvent → SessionState × List Broadcast
  | ClientEvent.qr code =>
      if s.connected || s.qrIssued then (s, [])
      else ({ s with qrIssued := true }, [Broadcast.qrImage (encodeQR code)])
  | ClientEvent.ready =>
      ({ s with connected := true }, [Broadcast.readyNote])
  | ClientEvent.authFailure =>
      ({ connected := false, qrIssued := false }, [Broadcast.authFailureNote])
  | ClientEvent.clientError _ =>
      ({ connected := false, qrIssued := false },
        [Broadcast.errorNote "WhatsApp client encountered an issue."])
  | ClientEvent.disconnected _ =>
      ({ connected := false, qrIssued := false }, [])

/-- Events whose handlers reset both session flags to false. -/
def isReset : ClientEvent → Bool
  | ClientEvent.authFailure => true
  | ClientEvent.clientError _ => true
  | ClientEvent.disconnected _ => true
  | _ => false

/-- Run a sequence of client events from a state, collecting all
broadcasts in order. -/
def runEvents (s : SessionState) : List ClientEvent → SessionState × List Broadcast
  | [] => (s, [])
  | e :: es =>
      let out := sessionStep s e
      let rest := runEvents out.1 es
      (rest.1, out.2 ++ rest.2)

/-- Number of QR-image broadcasts in a broadcast list. -/
def qrCount (bs : List Broadcast) : Nat :=
  (bs.filter (fun b => match b with | Broadcast.qrImage _ => true | _ => false)).length

/-- A chat as returned by client.getChats, with the fields server.js
reads: isGroup, name, and the serialized id used as send target. -/
structure Chat where
  isGroup : Bool
  name : String
  id : String
deriving Repr, DecidableEq

/-- JavaScript String.prototype.toLowerCase, modelled characterwise
with Char.toLower (sufficient for the ASCII group names at issue). -/
def lowerString (s : String) : String :=
  String.mk (s.data.map Char.toLower)

/-- Group lookup of server.js line 128:
`chats.find(chat => chat.isGroup && chat.name.toLowerCase() === groupName.toLowerCase())`. -/
def findGroup (chats : List Chat) (groupName : String) : Option Chat :=
  chats.find? (fun chat => chat.isGroup && lowerString chat.name == lowerString groupName)

/-- Handler of POST /send-group (server.js lines 119-140): validates
presence, resolves the group by case-insensitive exact name, returns
404 without sending when no chat matches, otherwise sends synchronously
and reports the true outcome (500 with the error message on failure).
The external send is passed in as a function from target id to outcome;
the returned list records the send attempts actually made, as
(target id, message) pairs. -/
def sendGroupHandler (chats : List Chat) (groupName message : Option String)
    (send : String → Except String Unit) : HttpResp × List (String × String) :=
  if !(jsStrTruthy groupName && jsStrTruthy message) then
    (HttpResp.failure 400 "Group name and message required", [])
  else
    let gn := groupName.getD ""
    let msg := message.getD ""
    match findGroup chats gn with
    | none => (HttpResp.failure 404 ("Group " ++ gn ++ " not found"), [])
    | some g =>
      match send g.id with
      | Except.ok _ => (HttpResp.success ("Message sent to " ++ gn), [(g.id, msg)])
      | Except.error e => (HttpResp.failure 500 e, [(g.id, msg)])

/-- A contact as returned by client.getContacts, with the fields the
getContacts socket handler reads; name is absent for contacts without
a display name. -/
structure Contact where
  isUser : Bool
  name : Option String
  number : String
deriving Repr, DecidableEq

/-- The shape emitted to the requesting subscriber per contact. -/
structure ContactSummary where
  name : String
  number : String
deriving Repr, DecidableEq

/-- JavaScript Array.prototype.slice(a, b) for nonnegative indices. -/
def jsSlice {α : Type} (l : List α) (a b : Nat) : List α :=
  (l.drop a).take (b - a)

/-- Per-contact mapping of server.js line 43:
`{ name: c.name || "Unknown", number: c.number }`. -/
def viewContact (c : Contact) : ContactSummary :=
  { name := jsOrString c.name "Unknown", number := c.number }

/-- The getContacts socket handler (server.js lines 37-50): filters to
user contacts, slices the 1-indexed page `[(page-1)*pageSize,
page*pageSize)`, and maps each contact to its summary. -/
def listContacts (contacts : List Contact) (page pageSize : Nat) : List ContactSummary :=
  ((jsSlice (contacts.filter (fun c => c.isUser)) ((page - 1) * pageSize) (page * pageSize)).map
    viewContact)

/-- Server state visible to the send-media handler: the session flags
and the set of files in the uploads directory. -/
structure ServerState where
  session : SessionState
  files : List String
deriving Repr, DecidableEq

/-- Body of POST /send-media: the multipart file (its stored path, as
req.file, already written by multer) plus number and caption fields. -/
structure MediaReq where
  file : Option String
  number : Option String
  caption : Option String

/-- A media send attempt: (resolved target id, file path, caption). -/
structure MediaAttempt where
  target : String
  path : String
  caption : Option String
deriving Repr, DecidableEq

/-- Handler of POST /send-media (server.js lines 159-183): validates
that the file and number are present, resolves the number with
client.getNumberId (400 when it yields nothing), sends the media
synchronously, and deletes the uploaded file with fs.unlinkSync only
after a successful send; the catch branch (500) performs no deletion.
resolve and send stand for the external client calls; returns the
response, the resulting server state, and the send attempts made. -/
def sendMediaHandler (st : ServerState) (req : MediaReq)
    (resolve : String → Option String) (send : String → Except String Unit) :
    HttpResp × ServerState × List MediaAttempt :=
  match req.file with
  | none => (HttpResp.failure 400 "Number and media file required", st, [])
  | some path =>
    if !(jsStrTruthy req.number) then
      (HttpResp.failure 400 "Number and media file required", st, [])
    else
      match resolve (req.number.getD "") with
      | none => (HttpResp.failure 400 "Invalid WhatsApp number", st, [])
      | some ser =>
        match send ser with
        | Except.error e =>
            (HttpResp.failure 500 e, st, [⟨ser, path, req.caption⟩])
        | Except.ok _ =>
            (HttpResp.success "Media sent successfully.",
              { st with files := st.files.erase path }, [⟨ser, path, req.caption⟩])

theorem filter_filter_self {α : Type} (p : α → Bool) (l : List α) :
    (l.filter p).filter p = l.filter p := by
  induction l with
  | nil => rfl
  | cons a t ih =>
    by_cases h : p a <;> simp [List.filter_cons, h, ih]

theorem stripNonDigits_append (a b : String) :
    stripNonDigits (a ++ b) = stripNonDigits a ++ stripNonDigits b := by
  simp only [stripNonDigits, String.data_append]
  rw [List.filter_append]
  rfl

theorem stripNonDigits_idem (x : String) :
    stripNonDigits (stripNonDigits x) = stripNonDigits x := by
  simp only [stripNonDigits]
  rw [filter_filter_self]

/-- C2: recipient normalization strips every non-digit character and
appends the fixed suffix, it is idempotent, and it maps the example
number "+1 (555) 123-4567" to "15551234567@c.us". -/
theorem normalizeRecipient_spec :
    (∀ x : String, normalizeRecipient x = String.mk (x.data.filter Char.isDigit) ++ "@c.us")
  ∧ (∀ x : String, normalizeRecipient (normalizeRecipient x) = normalizeRecipient x)
  ∧ normalizeRecipient "+1 (555) 123-4567" = "15551234567@c.us" := by
  refine ⟨fun x => rfl, fun x => ?_, by decide⟩
  have hsuffix : stripNonDigits "@c.us" = "" := by decide
  calc normalizeRecipient (normalizeRecipient x)
      = stripNonDigits (stripNonDigits x ++ "@c.us") ++ "@c.us" := rfl
    _ = (stripNonDigits (stripNonDigits x) ++ stripNonDigits "@c.us") ++ "@c.us" := by
        rw [stripNonDigits_append]
    _ = (stripNonDigits x ++ "") ++ "@c.us" := by rw [stripNonDigits_idem, hsuffix]
    _ = normalizeRecipient x := by rw [String.append_empty]; rfl

/-- C1: an accepted POST /send request with n recipients and spacing s
produces the success response, registers exactly n send attempts, the
attempt for the i-th recipient fires i*s milliseconds after acceptance
at that recipient's normalized address, and in the execution trace the
response precedes every attempt. -/
theorem sendEndpoint_spaced (numbers : List String) (message : String) (d : Option Nat)
    (hm : ¬ message = "") :
    (sendEndpoint ⟨some numbers, some message, d⟩).1 =
        HttpResp.success "Messages are being sent."
  ∧ (sendEndpoint ⟨some numbers, some message, d⟩).2.length = numbers.length
  ∧ (∀ i : Nat, ((sendEndpoint ⟨some numbers, some message, d⟩).2)[i]? =
      (numbers[i]?).map (fun x =>
        { fireAt := i * d.getD 1000, target := normalizeRecipient x, payload := message }))
  ∧ sendTrace ⟨some numbers, some message, d⟩ =
      TraceEvent.respond (HttpResp.success "Messages are being sent.") ::
        ((sendEndpoint ⟨some numbers, some message, d⟩).2.map TraceEvent.fire) := by
  have hval : (!(jsListTruthy (some numbers) && jsStrTruthy (some message))) = false := by
    simp [jsListTruthy, jsStrTruthy, hm]
  refine ⟨?_, ?_, ?_, ?_⟩
  · simp [sendEndpoint, hval]
  · simp [sendEndpoint, hval]
  · intro i
    cases h : numbers[i]? with
    | none =>
      have hlen : numbers.length ≤ i := by
        by_contra hlt
        exact absurd h (by simp [List.getElem?_eq_getElem (Nat.lt_of_not_le hlt)])
      simp [sendEndpoint, hval, List.getElem?_eq_none, hlen]
    | some x =>
      simp [sendEndpoint, hval, List.getElem?_map, List.getElem?_enum, h]
  · have h1 : (sendEndpoint ⟨some numbers, some message, d⟩).1 =
        HttpResp.success "Messages are being sent." := by simp [sendEndpoint, hval]
    rw [sendTrace, h1]

/-- Witness for sendEndpoint_spaced at the concrete request of the spec
scenario: two recipients with spacing 500. -/
theorem sendEndpoint_spaced_witness :
    (sendEndpoint ⟨some ["555-1234", "555-5678"], some "hi", some 500⟩).2.length = 2 :=
  (sendEndpoint_spaced ["555-1234", "555-5678"] "hi" (some 500) (by decide)).2.1

/-- C10: POST /send with an empty numbers array and a non-empty message
passes presence validation (an empty array is truthy), yields the
success response, and schedules exactly zero send attempts. -/
theorem sendEndpoint_empty_numbers (message : String) (d : Option Nat)
    (hm : ¬ message = "") :
    sendEndpoint ⟨some [], some message, d⟩ =
      (HttpResp.success "Messages are being sent.", []) := by
  have hval : (!(jsListTruthy (some ([] : List String)) && jsStrTruthy (some message))) =
      false := by
    simp [jsListTruthy, jsStrTruthy, hm]
  simp [sendEndpoint, hval]

/-- Witness for sendEndpoint_empty_numbers at a concrete message. -/
theorem sendEndpoint_empty_numbers_witness :
    sendEndpoint ⟨some [], some "hi", none⟩ =
      (HttpResp.success "Messages are being sent.", []) :=
  sendEndpoint_empty_numbers "hi" none (by decide)

/-- C3 counterexample: the recipient "abc" normalizes to the empty
local part, yet POST /send accepts the request and schedules a send
attempt for the bare-suffix address "@c.us" instead of rejecting it
during validation. -/
theorem sendEndpoint_accepts_empty_local_part :
    stripNonDigits "abc" = ""
  ∧ (sendEndpoint ⟨some ["abc"], some "hi", none⟩).1 =
      HttpResp.success "Messages are being sent."
  ∧ (sendEndpoint ⟨some ["abc"], some "hi", none⟩).2 =
      [{ fireAt := 0, target := "@c.us", payload := "hi" }] := by decide

theorem map_target_enumAttempts (message : String) (s : Nat) (l : List String) :
    ((l.enum.map (fun p =>
        { fireAt := p.1 * s, target := p.2, payload := message : SendAttempt })).map
      SendAttempt.target) = l := by
  rw [List.map_map]
  have h : (SendAttempt.target ∘ fun p : Nat × String =>
      { fireAt := p.1 * s, target := p.2, payload := message : SendAttempt }) = Prod.snd :=
    rfl
  rw [h, List.enum_map_snd]

/-- C3 amended: neither POST /send nor POST /schedule validates the
normalized recipients; a request passing the presence checks is
accepted even when some recipient has no digit characters, and a send
attempt targeting the bare suffix "@c.us" is scheduled for it, so the
malformed address fails at send time rather than during validation. -/
theorem no_empty_local_part_validation (numbers : List String) (message x : String)
    (d : Option Nat) (t now : Int) (hx : x ∈ numbers) (hdx : stripNonDigits x = "")
    (hm : ¬ message = "") (ht : now < t) (ht0 : ¬ t = 0) :
    (sendEndpoint ⟨some numbers, some message, d⟩).1 =
        HttpResp.success "Messages are being sent."
  ∧ "@c.us" ∈ ((sendEndpoint ⟨some numbers, some message, d⟩).2.map SendAttempt.target)
  ∧ (scheduleEndpoint ⟨some numbers, some message, some t⟩ now).1 =
        HttpResp.success "Message scheduled successfully."
  ∧ "@c.us" ∈ ((scheduleEndpoint ⟨some numbers, some message, some t⟩ now).2.map
        SendAttempt.target) := by
  have hval : (!(jsListTruthy (some numbers) && jsStrTruthy (some message))) = false := by
    simp [jsListTruthy, jsStrTruthy, hm]
  have hval2 : (!(jsListTruthy (some numbers) && jsStrTruthy (some message) &&
      jsNumTruthy (some t))) = false := by
    simp [jsListTruthy, jsStrTruthy, jsNumTruthy, hm, ht0]
  have hdelay : ¬ (t - now ≤ 0) := by omega
  have hxnorm : normalizeRecipient x = "@c.us" := by
    rw [normalizeRecipient, hdx]
    decide
  have hmem : "@c.us" ∈ numbers.map normalizeRecipient := by
    rw [← hxnorm]
    exact List.mem_map_of_mem normalizeRecipient hx
  refine ⟨by simp [sendEndpoint, hval], ?_, ?_, ?_⟩
  · have htargets : ((sendEndpoint ⟨some numbers, some message, d⟩).2.map SendAttempt.target) =
        numbers.map normalizeRecipient := by
      simp only [sendEndpoint, hval, Bool.false_eq_true, if_false, Option.getD_some]
      exact map_target_enumAttempts message (d.getD 1000) (numbers.map normalizeRecipient)
    rw [htargets]; exact hmem
  · simp [scheduleEndpoint, hval2, hdelay]
  · have htargets : ((scheduleEndpoint ⟨some numbers, some message, some t⟩ now).2.map
        SendAttempt.target) = numbers.map normalizeRecipient := by
      simp only [scheduleEndpoint, hval2, Bool.false_eq_true, if_false, Option.getD_some,
        if_neg hdelay, List.map_map]
      rfl
    rw [htargets]; exact hmem

/-- Witness for no_empty_local_part_validation at the concrete request
with the digit-free recipient "abc". -/
theorem no_empty_local_part_validation_witness :
    (sendEndpoint ⟨some ["abc"], some "hi", none⟩).1 =
        HttpResp.success "Messages are being sent."
  ∧ "@c.us" ∈ ((sendEndpoint ⟨some ["abc"], some "hi", none⟩).2.map SendAttempt.target)
  ∧ (scheduleEndpoint ⟨some ["abc"], some "hi", some 10⟩ 0).1 =
        HttpResp.success "Message scheduled successfully."
  ∧ "@c.us" ∈ ((scheduleEndpoint ⟨some ["abc"], some "hi", some 10⟩ 0).2.map
        SendAttempt.target) :=
  no_empty_local_part_validation ["abc"] "hi" "abc" none 10 0 (by decide) (by decide)
    (by decide) (by decide) (by decide)

/-- C4: given fields passing the presence validation, POST /schedule
answers 400 "Invalid timestamp" and schedules nothing exactly when the
timestamp is at or before now; otherwise it accepts, and every
recipient's attempt fires at the same instant, timestamp - now
milliseconds after acceptance, with no inter-recipient spacing. -/
theorem scheduleEndpoint_timestamp (numbers : List String) (message : String) (t now : Int)
    (hm : ¬ message = "") (ht0 : ¬ t = 0) :
    (((scheduleEndpoint ⟨some numbers, some message, some t⟩ now).1 =
          HttpResp.failure 400 "Invalid timestamp"
      ∧ (scheduleEndpoint ⟨some numbers, some message, some t⟩ now).2 = []) ↔ t ≤ now)
  ∧ (now < t →
      (scheduleEndpoint ⟨some numbers, some message, some t⟩ now).1 =
          HttpResp.success "Message scheduled successfully."
      ∧ (scheduleEndpoint ⟨some numbers, some message, some t⟩ now).2.length =
          numbers.length
      ∧ (∀ i : Nat, ((scheduleEndpoint ⟨some numbers, some message, some t⟩ now).2)[i]? =
          (numbers[i]?).map (fun x =>
            { fireAt := (t - now).toNat, target := normalizeRecipient x,
              payload := message }))) := by
  have hval2 : (!(jsListTruthy (some numbers) && jsStrTruthy (some message) &&
      jsNumTruthy (some t))) = false := by
    simp [jsListTruthy, jsStrTruthy, jsNumTruthy, hm, ht0]
  by_cases hle : t - now ≤ 0
  · have htn : t ≤ now := by omega
    constructor
    · simp [scheduleEndpoint, hval2, hle, htn]
    · intro hlt; omega
  · have htn : ¬ t ≤ now := by omega
    constructor
    · simp [scheduleEndpoint, hval2, hle, htn]
    · intro _
      refine ⟨by simp [scheduleEndpoint, hval2, hle], by simp [scheduleEndpoint, hval2, hle], ?_⟩
      intro i
      cases h : numbers[i]? with
      | none =>
        have hlen : numbers.length ≤ i := by
          by_contra hlt2
          exact absurd h (by simp [List.getElem?_eq_getElem (Nat.lt_of_not_le hlt2)])
        simp [scheduleEndpoint, hval2, hle, List.getElem?_eq_none, hlen]
      | some x =>
        simp [scheduleEndpoint, hval2, hle, List.getElem?_map, h]

/-- Witness for scheduleEndpoint_timestamp: a past timestamp is
rejected with nothing scheduled, a future one accepted. -/
theorem scheduleEndpoint_timestamp_witness :
    ((scheduleEndpoint ⟨some ["5551234"], some "hi", some 3⟩ 10).1 =
        HttpResp.failure 400 "Invalid timestamp"
      ∧ (scheduleEndpoint ⟨some ["5551234"], some "hi", some 3⟩ 10).2 = [])
  ∧ (scheduleEndpoint ⟨some ["5551234"], some "hi", some 12⟩ 10).1 =
        HttpResp.success "Message scheduled successfully." :=
  ⟨(scheduleEndpoint_timestamp ["5551234"] "hi" 3 10 (by decide) (by decide)).1.2
      (by decide),
   ((scheduleEndpoint_timestamp ["5551234"] "hi" 12 10 (by decide) (by decide)).2
      (by decide)).1⟩

theorem qrCount_append (a b : List Broadcast) :
    qrCount (a ++ b) = qrCount a + qrCount b := by
  simp [qrCount, List.filter_append]

theorem qrCount_le_of_no_reset (es : List ClientEvent) :
    ∀ s : SessionState, (∀ e ∈ es, isReset e = false) →
      qrCount (runEvents s es).2 ≤ (if s.qrIssued then 0 else 1) := by
  induction es with
  | nil =>
    intro s _
    simp [runEvents, qrCount]
  | cons e tl ih =>
    intro s h
    have he : isReset e = false := h e (List.mem_cons_self e tl)
    have htl : ∀ x ∈ tl, isReset x = false := fun x hx => h x (List.mem_cons_of_mem e hx)
    cases e with
    | qr code =>
      by_cases hg : (s.connected || s.qrIssued) = true
      · have := ih s htl
        simpa [runEvents, sessionStep, hg, qrCount_append, qrCount] using this
      · have hconn : s.connected = false := by
          cases hc : s.connected
          · rfl
          · exact absurd (by simp [hc]) hg
        have hqi : s.qrIssued = false := by
          cases hqc : s.qrIssued
          · rfl
          · exact absurd (by simp [hqc]) hg
        have hrest := ih { connected := false, qrIssued := true } htl
        simp only [if_true] at hrest
        have h1 : qrCount [Broadcast.qrImage (encodeQR code)] = 1 := by
          simp [qrCount]
        simp only [runEvents, sessionStep, hconn, hqi, Bool.or_self, Bool.false_eq_true,
          if_false, qrCount_append, h1]
        omega
    | ready =>
      have := ih { s with connected := true } htl
      have h0 : qrCount [Broadcast.readyNote] = 0 := by decide
      simp only [runEvents, sessionStep, qrCount_append, h0] at *
      omega
    | authFailure => simp [isReset] at he
    | clientError m => simp [isReset] at he
    | disconnected r => simp [isReset] at he

/-- C5: the qr handler ignores an offer (no broadcast, no state change)
whenever connected or qrIssued holds, and otherwise sets qrIssued and
broadcasts the encoded code exactly once; auth-failure, error and
disconnected each reset both flags to false; consequently a run with no
reset event starting from the post-reset state broadcasts at most one
QR image. -/
theorem sessionState_qr_invariant :
    (∀ (s : SessionState) (code : String), (s.connected || s.qrIssued) = true →
        sessionStep s (ClientEvent.qr code) = (s, []))
  ∧ (∀ (s : SessionState) (code : String), (s.connected || s.qrIssued) = false →
        sessionStep s (ClientEvent.qr code) =
          ({ s with qrIssued := true }, [Broadcast.qrImage (encodeQR code)]))
  ∧ (∀ (s : SessionState) (e : ClientEvent), isReset e = true →
        (sessionStep s e).1 = { connected := false, qrIssued := false })
  ∧ (∀ es : List ClientEvent, (∀ e ∈ es, isReset e = false) →
        qrCount (runEvents { connected := false, qrIssued := false } es).2 ≤ 1) := by
  refine ⟨?_, ?_, ?_, ?_⟩
  · intro s code hg
    simp [sessionStep, hg]
  · intro s code hg
    simp [sessionStep, hg]
  · intro s e he
    cases e <;> simp_all [sessionStep, isReset]
  · intro es h
    have := qrCount_le_of_no_reset es { connected := false, qrIssued := false } h
    simpa using this

/-- Witness for sessionState_qr_invariant: an offer is ignored when the
client is connected, and a reset-free run from the post-reset state
broadcasts at most one QR image even across repeated offers. -/
theorem sessionState_qr_invariant_witness :
    sessionStep { connected := true, qrIssued := false } (ClientEvent.qr "code") =
      ({ connected := true, qrIssued := false }, [])
  ∧ qrCount (runEvents { connected := false, qrIssued := false }
      [ClientEvent.qr "a", ClientEvent.qr "b", ClientEvent.ready, ClientEvent.qr "c"]).2 ≤ 1 :=
  ⟨sessionState_qr_invariant.1 { connected := true, qrIssued := false } "code" (by decide),
   sessionState_qr_invariant.2.2.2
     [ClientEvent.qr "a", ClientEvent.qr "b", ClientEvent.ready, ClientEvent.qr "c"]
     (by decide)⟩

/-- C6 counterexample: the disconnected handler resets the session
flags but broadcasts no lifecycle notification, unlike the ready,
auth-failure and error handlers. -/
theorem disconnected_emits_no_broadcast :
    sessionStep { connected := true, qrIssued := true } (ClientEvent.disconnected "NAVIGATION") =
      ({ connected := false, qrIssued := false }, []) := by decide

/-- C6 amended: ready, auth-failure and error each update the session
flags and broadcast one lifecycle notification, while the disconnected
handler only updates the flags and broadcasts nothing. -/
theorem lifecycle_handlers_spec (s : SessionState) (m r : String) :
    sessionStep s ClientEvent.ready = ({ s with connected := true }, [Broadcast.readyNote])
  ∧ sessionStep s ClientEvent.authFailure =
      ({ connected := false, qrIssued := false }, [Broadcast.authFailureNote])
  ∧ sessionStep s (ClientEvent.clientError m) =
      ({ connected := false, qrIssued := false },
        [Broadcast.errorNote "WhatsApp client encountered an issue."])
  ∧ sessionStep s (ClientEvent.disconnected r) =
      ({ connected := false, qrIssued := false }, []) :=
  ⟨rfl, rfl, rfl, rfl⟩

/-- C7: with group name and message present, POST /send-group answers
404 and makes no send attempt when no group chat matches the name
case-insensitively; when a match exists it makes exactly one
synchronous send attempt to the matched group, and the response
reflects the true outcome of that attempt (success exactly on a
successful send, 500 with the error otherwise). -/
theorem sendGroupHandler_spec (chats : List Chat) (groupName message : String)
    (send : String → Except String Unit) (hg : ¬ groupName = "") (hm : ¬ message = "") :
    (findGroup chats groupName = none →
        sendGroupHandler chats (some groupName) (some message) send =
          (HttpResp.failure 404 ("Group " ++ groupName ++ " not found"), []))
  ∧ (∀ g : Chat, findGroup chats groupName = some g →
        (sendGroupHandler chats (some groupName) (some message) send).2 = [(g.id, message)]
      ∧ ((sendGroupHandler chats (some groupName) (some message) send).1 =
            HttpResp.success ("Message sent to " ++ groupName) ↔ send g.id = Except.ok ())
      ∧ (∀ e : String, send g.id = Except.error e →
            (sendGroupHandler chats (some groupName) (some message) send).1 =
              HttpResp.failure 500 e)) := by
  have hval : (!(jsStrTruthy (some groupName) && jsStrTruthy (some message))) = false := by
    simp [jsStrTruthy, hg, hm]
  constructor
  · intro hnone
    simp [sendGroupHandler, hval, hnone]
  · intro g hsome
    cases hs : send g.id with
    | ok u =>
      cases u
      refine ⟨by simp [sendGroupHandler, hval, hsome, hs], ?_, ?_⟩
      · simp [sendGroupHandler, hval, hsome, hs]
      · intro e he
        simp [hs] at he
    | error e0 =>
      refine ⟨by simp [sendGroupHandler, hval, hsome, hs], ?_, ?_⟩
      · simp [sendGroupHandler, hval, hsome, hs]
      · intro e he
        simp only [hs, Except.error.injEq] at he
        subst he
        simp [sendGroupHandler, hval, hsome, hs]

/-- Witness for sendGroupHandler_spec: the name "team" matches the
group chat named "Team" case-insensitively and the successful send is
reported; the name "absent" matches nothing and yields 404 without an
attempt. -/
theorem sendGroupHandler_spec_witness :
    (sendGroupHandler [{ isGroup := true, name := "Team", id := "gid1" }] (some "absent")
        (some "hi") (fun _ => Except.ok ()) =
      (HttpResp.failure 404 ("Group " ++ "absent" ++ " not found"), []))
  ∧ (sendGroupHandler [{ isGroup := true, name := "Team", id := "gid1" }] (some "team")
        (some "hi") (fun _ => Except.ok ())).2 = [("gid1", "hi")] :=
  ⟨(sendGroupHandler_spec [{ isGroup := true, name := "Team", id := "gid1" }] "absent" "hi"
      (fun _ => Except.ok ()) (by decide) (by decide)).1 (by decide),
   ((sendGroupHandler_spec [{ isGroup := true, name := "Team", id := "gid1" }] "team" "hi"
      (fun _ => Except.ok ()) (by decide) (by decide)).2
      { isGroup := true, name := "Team", id := "gid1" } (by decide)).1⟩

/-- C8: for page and pageSize at least 1, the getContacts handler
returns exactly the user-type contacts at 0-indexed positions
(page-1)*pageSize through page*pageSize - 1 of the filtered sequence,
each mapped to its summary; positions past pageSize are absent, a page
past the end of the filtered sequence yields the empty list, and a
contact without a display name is mapped to the literal "Unknown". -/
theorem listContacts_spec (contacts : List Contact) (page pageSize : Nat)
    (hp : 1 ≤ page) (hs : 1 ≤ pageSize) :
    (∀ i : Nat, i < pageSize →
        (listContacts contacts page pageSize)[i]? =
          ((contacts.filter (fun c => c.isUser))[(page - 1) * pageSize + i]?).map viewContact)
  ∧ (∀ i : Nat, pageSize ≤ i → (listContacts contacts page pageSize)[i]? = none)
  ∧ ((contacts.filter (fun c => c.isUser)).length ≤ (page - 1) * pageSize →
        listContacts contacts page pageSize = [])
  ∧ (∀ c : Contact, c.name = none →
        viewContact c = { name := "Unknown", number := c.number }) := by
  have hba : page * pageSize - (page - 1) * pageSize = pageSize := by
    have h1 : (page - 1) * pageSize + pageSize = page * pageSize := by
      cases page with
      | zero => omega
      | succ n => simp [Nat.succ_sub_one, Nat.succ_mul]
    rw [← h1, Nat.add_sub_cancel_left]
  refine ⟨?_, ?_, ?_, ?_⟩
  · intro i hi
    simp only [listContacts, jsSlice, hba, List.getElem?_map, List.getElem?_take, hi,
      if_true, List.getElem?_drop]
  · intro i hi
    have hlen : (listContacts contacts page pageSize).length ≤ i := by
      have : (listContacts contacts page pageSize).length ≤ pageSize := by
        simp only [listContacts, jsSlice, hba, List.length_map]
        exact le_trans (List.length_take_le _ _) (le_refl _)
      omega
    exact List.getElem?_eq_none hlen
  · intro hpast
    simp only [listContacts, jsSlice, List.drop_eq_nil_of_le hpast, List.take_nil,
      List.map_nil]
  · intro c hc
    simp [viewContact, jsOrString, hc]

/-- Witness for listContacts_spec: page 2 of size 1 over a three-entry
contact set with one non-user contact selects the second user contact. -/
theorem listContacts_spec_witness :
    (listContacts
        [{ isUser := true, name := none, number := "111" },
         { isUser := false, name := some "Broadcast", number := "333" },
         { isUser := true, name := some "Bob", number := "222" }] 2 1)[0]? =
      some { name := "Bob", number := "222" } := by
  have h :=
    (listContacts_spec
      [{ isUser := true, name := none, number := "111" },
       { isUser := false, name := some "Broadcast", number := "333" },
       { isUser := true, name := some "Bob", number := "222" }] 2 1
      (by decide) (by decide)).1 0 (by decide)
  rw [h]
  decide

/-- C9: in the send-media handler the uploaded file is removed from
disk exactly on the successful-send path: the invalid-recipient path
and the delivery-error path leave the server state (including the file)
unchanged, while a successful send removes exactly that file and leaves
the session state untouched. -/
theorem sendMediaHandler_deletion (st : ServerState) (path number : String)
    (caption : Option String) (resolve : String → Option String)
    (send : String → Except String Unit) (hn : ¬ number = "")
    (hmem : path ∈ st.files) (hnd : st.files.Nodup) :
    ((sendMediaHandler st ⟨some path, some number, caption⟩ resolve send).2.1.session =
        st.session)
  ∧ (resolve number = none →
      (sendMediaHandler st ⟨some path, some number, caption⟩ resolve send).1 =
          HttpResp.failure 400 "Invalid WhatsApp number"
      ∧ (sendMediaHandler st ⟨some path, some number, caption⟩ resolve send).2.1 = st)
  ∧ (∀ (ser e : String), resolve number = some ser → send ser = Except.error e →
      (sendMediaHandler st ⟨some path, some number, caption⟩ resolve send).2.1 = st)
  ∧ (∀ ser : String, resolve number = some ser → send ser = Except.ok () →
      (sendMediaHandler st ⟨some path, some number, caption⟩ resolve send).2.1.files =
          st.files.erase path
      ∧ path ∉ (sendMediaHandler st ⟨some path, some number, caption⟩ resolve send).2.1.files) := by
  have hval : (!(jsStrTruthy (some number))) = false := by simp [jsStrTruthy, hn]
  refine ⟨?_, ?_, ?_, ?_⟩
  · cases hr : resolve number with
    | none => simp [sendMediaHandler, hval, hr]
    | some ser =>
      cases hsend : send ser with
      | ok u => cases u; simp [sendMediaHandler, hval, hr, hsend]
      | error e => simp [sendMediaHandler, hval, hr, hsend]
  · intro hr
    simp [sendMediaHandler, hval, hr]
  · intro ser e hr hsend
    simp [sendMediaHandler, hval, hr, hsend]
  · intro ser hr hsend
    have hfiles :
        (sendMediaHandler st ⟨some path, some number, caption⟩ resolve send).2.1.files =
          st.files.erase path := by
      simp [sendMediaHandler, hval, hr, hsend]
    refine ⟨hfiles, ?_⟩
    rw [hfiles]
    intro habs
    exact absurd rfl ((hnd.mem_erase_iff.mp habs).1)

/-- Witness for sendMediaHandler_deletion: with a resolvable number and
a successful send, the single uploaded file is removed from disk. -/
theorem sendMediaHandler_deletion_witness :
    (sendMediaHandler
        { session := { connected := true, qrIssued := false }, files := ["a.png"] }
        ⟨some "a.png", some "5551234", some "cap"⟩
        (fun _ => some "5551234@c.us") (fun _ => Except.ok ())).2.1.files =
      (["a.png"].erase "a.png")
  ∧ "a.png" ∉ (sendMediaHandler
        { session := { connected := true, qrIssued := false }, files := ["a.png"] }
        ⟨some "a.png", some "5551234", some "cap"⟩
        (fun _ => some "5551234@c.us") (fun _ => Except.ok ())).2.1.files :=
  sendMediaHandler_deletion
    { session := { connected := true, qrIssued := false }, files := ["a.png"] }
    "a.png" "5551234" (some "cap") (fun _ => some "5551234@c.us") (fun _ => Except.ok ())
    (by decide) (by decide) (by decide) |>.2.2.2 "5551234@c.us" rfl rfl
